import Mathlib

/-
Verification development for the finlook backend service layer.

The service code is shallowly embedded as pure Lean functions over an
explicit relational store.  Conventions of the embedding:

- Database tables become lists of rows kept in insertion order; a row
  inserted later has a strictly later creation timestamp, so the
  "order by createdAt desc" queries of the source are modelled as the
  reverse of insertion order.  Timestamp columns themselves carry no
  information used by any verified property and are not modelled as data.
- A select with a where-clause and limit 1 becomes List.find?; an
  existence probe becomes List.any; an unbounded delete by predicate
  becomes List.filter with the negated predicate; an update by predicate
  becomes List.map with a row transformer.
- The CustomError(message, status) failures of the source become
  Except.error of an Err record carrying the same message and status.
- Redis, used only by the OTP service, is modelled per mobile number as
  two optional entries (the code entry and the attempt-counter entry),
  each carrying an absolute expiry instant; operations take the current
  time as an explicit argument.  setEx key ttl v becomes storing
  (v, now + ttl); an expired entry reads as absent.
-/

/-- Error value mirroring CustomError(message, statusCode) of the source. -/
structure Err where
  message : String
  status : Nat
deriving Repr, DecidableEq

def msgOriginalNotFound : String := "Original post not found"

def msgCannotRetweet : String := "Cannot retweet a retweet"

def msgAlreadyRetweeted : String := "You have already retweeted this post"

def msgPostNotFound : String := "Post not found"

def msgCommentNotFound : String := "Comment not found"

def msgUpdateOwnPosts : String := "You can only update your own posts"

def msgUpdateOwnComments : String := "You can only update your own comments"

def msgCreatePostFailed : String := "Failed to create post"

def msgCourseNotFound : String := "Course not found or is no longer available"

def msgCourseMissing : String := "Course not found"

def msgAlreadyPurchased : String := "You have already purchased this course"

def msgTooManyAttempts : String := "Too many failed attempts. Please request a new OTP."

def msgOtpExpired : String := "OTP has expired or does not exist. Please request a new OTP."

def msgInvalidOtp : String := "Invalid OTP. Please try again."

def msgOtpAlreadySent : String := "OTP was already sent. Please wait before requesting again."

def msgUserNotFound : String := "User not found with this mobile number"

def msgAdminPasswordLogin : String := "Admin users must use password-based login"

/-- Row of the users table (fields relevant to the verified operations). -/
structure User where
  id : Nat
  role : String
  mobileNumber : String
deriving Repr, DecidableEq

/-- Row of the posts table from src/db/schema.ts: counters default to 0,
isRetweet defaults to false, originalPostId is a nullable self reference. -/
structure Post where
  id : Nat
  userId : Nat
  content : Option String
  images : List String
  likes : Int
  shares : Int
  bookmarks : Int
  isRetweet : Bool
  originalPostId : Option Nat
deriving Repr, DecidableEq

/-- Row of the comments table. -/
structure Comment where
  id : Nat
  postId : Nat
  userId : Nat
  content : Option String
  images : List String
  likes : Int
deriving Repr, DecidableEq

/-- Row of the likes table: polymorphic target, exactly one of postId and
commentId is meant to be set.  The surrogate id column is never consulted
by any query of the source and is not modelled. -/
structure LikeRow where
  userId : Nat
  postId : Option Nat
  commentId : Option Nat
deriving Repr, DecidableEq

/-- Row of the bookmarks table. -/
structure BookmarkRow where
  userId : Nat
  postId : Nat
deriving Repr, DecidableEq

/-- Row of the courses table (fields consulted by the purchase path). -/
structure Course where
  id : Nat
  title : String
  price : Int
  originalPrice : Option Int
  isActive : Bool
deriving Repr, DecidableEq

/-- Row of the course_purchases table. -/
structure Purchase where
  userId : Nat
  courseId : Nat
  purchasePrice : Int
deriving Repr, DecidableEq

/-- The relational store: one list per table, in insertion order, plus the
next fresh post id (the source uses random uuids; freshness is the only
property the code relies on). -/
structure Store where
  users : List User
  posts : List Post
  comments : List Comment
  likes : List LikeRow
  bookmarks : List BookmarkRow
  courses : List Course
  purchases : List Purchase
  nextPostId : Nat
deriving Repr, DecidableEq

/-- Well-formedness: every stored post id is below the fresh-id counter,
so a newly inserted post never collides with an existing row. -/
def Store.WF (s : Store) : Prop :=
  ∀ p ∈ s.posts, p.id < s.nextPostId

instance (s : Store) : Decidable s.WF := by
  unfold Store.WF
  infer_instance

/-- select from posts where id = pid limit 1. -/
def findPostById (s : Store) (pid : Nat) : Option Post :=
  s.posts.find? (fun p => p.id == pid)

/-- select from users where id = uid limit 1 (the leftJoin on users). -/
def findUserById (s : Store) (uid : Nat) : Option User :=
  s.users.find? (fun u => u.id == uid)

/-- Existence probe for a retweet of post pid by user uid, as in the
createRetweet duplicate check and the isRetweeted enrichment of getPosts. -/
def hasRetweeted (s : Store) (uid pid : Nat) : Bool :=
  s.posts.any (fun p => p.userId == uid && p.originalPostId == some pid && p.isRetweet)

/-- Existence probe for a like row of post pid by user uid. -/
def hasPostLike (s : Store) (uid pid : Nat) : Bool :=
  s.likes.any (fun l => l.postId == some pid && l.userId == uid)

/-- Existence probe for a bookmark row of post pid by user uid. -/
def hasBookmark (s : Store) (uid pid : Nat) : Bool :=
  s.bookmarks.any (fun b => b.postId == pid && b.userId == uid)

/-- Existence probe for a like row of comment cid by user uid. -/
def hasCommentLike (s : Store) (uid cid : Nat) : Bool :=
  s.likes.any (fun l => l.commentId == some cid && l.userId == uid)

/-- Math.ceil(a / b) for natural a and positive natural b, as used for the
totalPages field of pagination metadata. -/
def jsCeilDiv (a b : Nat) : Nat :=
  (a + b - 1) / b

/-- One row of the comments array produced by PostService.getPostComments:
the selected comment columns, the joined user, and the enrichment fields
likesCount and isLiked added per row. -/
structure CommentItem where
  id : Nat
  content : Option String
  images : List String
  likes : Int
  user : Option User
  likesCount : Int
  isLiked : Bool
deriving Repr, DecidableEq

/-- Result shape of PostService.getPostComments. -/
structure CommentsPage where
  comments : List CommentItem
  page : Nat
  limit : Nat
  total : Nat
  totalPages : Nat
deriving Repr, DecidableEq

/-- PostService.getPostComments(postId, pagination, userId?): comments of
the post ordered by createdAt descending, sliced by offset and limit,
joined with their author and enriched with the viewer's like state. -/
def getPostComments (s : Store) (postId page limit : Nat) (viewer : Option Nat) : CommentsPage :=
  let all := s.comments.filter (fun c => c.postId == postId)
  let rows := ((all.reverse.drop ((page - 1) * limit)).take limit).map (fun c =>
    { id := c.id
      content := c.content
      images := c.images
      likes := c.likes
      user := findUserById s c.userId
      likesCount := c.likes
      isLiked :=
        match viewer with
        | some uid => hasCommentLike s uid c.id
        | none => false })
  { comments := rows
    page := page
    limit := limit
    total := all.length
    totalPages := jsCeilDiv all.length limit }

/-- The nested original-post object assembled by PostService.getPostById
for a retweet: the original post row spread together with its author and
an always-empty comments array (the source deliberately skips fetching
comments of the original to avoid deep nesting). -/
structure OriginalView where
  id : Nat
  content : Option String
  images : List String
  likes : Int
  shares : Int
  bookmarks : Int
  isRetweet : Bool
  originalPostId : Option Nat
  userId : Nat
  user : Option User
  comments : List CommentItem
deriving Repr, DecidableEq

/-- Result shape of PostService.getPostById: post columns, joined author,
comments, and the optional depth-one original post.  No viewer-relative
flags exist in this shape. -/
structure PostView where
  id : Nat
  content : Option String
  images : List String
  likes : Int
  shares : Int
  bookmarks : Int
  isRetweet : Bool
  originalPostId : Option Nat
  user : Option User
  comments : List CommentItem
  originalPost : Option OriginalView
deriving Repr, DecidableEq

/-- The original-post block of PostService.getPostById: when the post is a
retweet with an originalPostId, fetch the original post row and then its
author, and assemble the depth-one view with an always-empty comments
array; a missing original or missing original author yields null. -/
def originalPostView (s : Store) (post : Post) : Option OriginalView :=
  if post.isRetweet then
    match post.originalPostId with
    | none => none
    | some oid =>
      match findPostById s oid with
      | none => none
      | some op =>
        match findUserById s op.userId with
        | none => none
        | some ou =>
          some
            { id := op.id
              content := op.content
              images := op.images
              likes := op.likes
              shares := op.shares
              bookmarks := op.bookmarks
              isRetweet := op.isRetweet
              originalPostId := op.originalPostId
              userId := op.userId
              user := some ou
              comments := [] }
  else none

/-- PostService.getPostById(postId): select the post (404 when absent),
fetch its comments with page 1 and limit 10 and no viewer, and when the
post is a retweet attach the depth-one original view. -/
def getPostById (s : Store) (postId : Nat) : Except Err PostView :=
  match findPostById s postId with
  | none => Except.error ⟨msgPostNotFound, 404⟩
  | some post =>
    let cs := getPostComments s postId 1 10 none
    let orig : Option OriginalView := originalPostView s post
    Except.ok
      { id := post.id
        content := post.content
        images := post.images
        likes := post.likes
        shares := post.shares
        bookmarks := post.bookmarks
        isRetweet := post.isRetweet
        originalPostId := post.originalPostId
        user := findUserById s post.userId
        comments := cs.comments
        originalPost := orig }

/-- Request body of POST /posts (createPostSchema): optional content and
optional list of image urls. -/
structure PostReq where
  content : Option String
  images : Option (List String)
deriving Repr, DecidableEq

/-- Validity predicate of createPostSchema and updatePostSchema: content
present or at least one image. -/
def PostReq.valid (r : PostReq) : Prop :=
  r.content.isSome ∨ (r.images.getD []).length > 0

instance (r : PostReq) : Decidable r.valid := by
  unfold PostReq.valid
  infer_instance

/-- Request body of POST /posts/retweet (createRetweetSchema). -/
structure RetweetReq where
  originalPostId : Nat
  content : Option String
  images : Option (List String)
deriving Repr, DecidableEq

/-- PostService.createPost(userId, postData): insert a post with the
given content, the given images defaulting to the empty array, isRetweet
false and all counters at their schema default of zero, then return the
assembled view of the new post.  Any failure is swallowed into a 500. -/
def createPost (s : Store) (uid : Nat) (req : PostReq) : Except Err (Store × PostView) :=
  let newPost : Post :=
    { id := s.nextPostId
      userId := uid
      content := req.content
      images := req.images.getD []
      likes := 0
      shares := 0
      bookmarks := 0
      isRetweet := false
      originalPostId := none }
  let s1 : Store := { s with posts := s.posts ++ [newPost], nextPostId := s.nextPostId + 1 }
  match getPostById s1 newPost.id with
  | Except.ok v => Except.ok (s1, v)
  | Except.error _ => Except.error ⟨msgCreatePostFailed, 500⟩

/-- Row transformer of the share-counter update issued by createRetweet:
set shares = shares + 1 on the post whose id is pid. -/
def bumpShares (pid : Nat) (p : Post) : Post :=
  if p.id == pid then { p with shares := p.shares + 1 } else p

/-- PostService.createRetweet(userId, retweetData): 404 when the original
post is absent, 400 when the original is itself a retweet, 409 when the
user already retweeted this original; otherwise insert the retweet row and
then increment the original post's share counter, returning the assembled
view of the new retweet. -/
def createRetweet (s : Store) (uid : Nat) (r : RetweetReq) : Except Err (Store × PostView) :=
  match findPostById s r.originalPostId with
  | none => Except.error ⟨msgOriginalNotFound, 404⟩
  | some orig =>
    if orig.isRetweet then Except.error ⟨msgCannotRetweet, 400⟩
    else if hasRetweeted s uid r.originalPostId then Except.error ⟨msgAlreadyRetweeted, 409⟩
    else
      let newPost : Post :=
        { id := s.nextPostId
          userId := uid
          content := r.content
          images := r.images.getD []
          likes := 0
          shares := 0
          bookmarks := 0
          isRetweet := true
          originalPostId := some r.originalPostId }
      let s2 : Store :=
        { s with
          posts := (s.posts ++ [newPost]).map (bumpShares r.originalPostId)
          nextPostId := s.nextPostId + 1 }
      match getPostById s2 newPost.id with
      | Except.ok v => Except.ok (s2, v)
      | Except.error e => Except.error e

/-- One row of the data array of PostService.getPosts: the selected post
columns with joined author, the first page of five comments, the three
viewer-relative flags, and the optional assembled original post. -/
structure FeedPost where
  id : Nat
  content : Option String
  images : List String
  likes : Int
  shares : Int
  bookmarks : Int
  isRetweet : Bool
  originalPostId : Option Nat
  user : Option User
  comments : List CommentItem
  isLiked : Bool
  isBookmarked : Bool
  isRetweeted : Bool
  originalPost : Option PostView
deriving Repr, DecidableEq

/-- Per-row assembly of PostService.getPosts: fetch the first five
comments with the viewer, probe like, bookmark and retweet existence when
a viewer is present, and for a retweet fetch the original's full
getPostById view, dropping it on failure. -/
def assembleFeedPost (s : Store) (viewer : Option Nat) (p : Post) : FeedPost :=
  { id := p.id
    content := p.content
    images := p.images
    likes := p.likes
    shares := p.shares
    bookmarks := p.bookmarks
    isRetweet := p.isRetweet
    originalPostId := p.originalPostId
    user := findUserById s p.userId
    comments := (getPostComments s p.id 1 5 viewer).comments
    isLiked :=
      match viewer with
      | some uid => hasPostLike s uid p.id
      | none => false
    isBookmarked :=
      match viewer with
      | some uid => hasBookmark s uid p.id
      | none => false
    isRetweeted :=
      match viewer with
      | some uid => hasRetweeted s uid p.id
      | none => false
    originalPost :=
      if p.isRetweet then
        match p.originalPostId with
        | some oid => (getPostById s oid).toOption
        | none => none
      else none }

/-- Result shape of PostService.getPosts. -/
structure PostsPage where
  data : List FeedPost
  page : Nat
  limit : Nat
  total : Nat
  totalPages : Nat
deriving Repr, DecidableEq

/-- PostService.getPosts(pagination, userId?): posts ordered by createdAt
descending, sliced with offset (page - 1) * limit and the page limit, each
row assembled per assembleFeedPost; total is an unscoped count of the
posts table and totalPages is Math.ceil(total / limit). -/
def getPosts (s : Store) (page limit : Nat) (viewer : Option Nat) : PostsPage :=
  let rows := (s.posts.reverse.drop ((page - 1) * limit)).take limit
  { data := rows.map (assembleFeedPost s viewer)
    page := page
    limit := limit
    total := s.posts.length
    totalPages := jsCeilDiv s.posts.length limit }

/-- Request body of PUT /posts/:id (updatePostSchema), identical shape to
PostReq; a field left undefined is omitted from the request. -/
structure UpdateReq where
  content : Option String
  images : Option (List String)
deriving Repr, DecidableEq

/-- Row transformer of the update statement of updatePost: the images
column is always overwritten with the request images defaulting to the
empty array; the content column is only written when the request carries
one (an undefined value is dropped from the set clause by the orm). -/
def applyPostUpdate (pid : Nat) (u : UpdateReq) (p : Post) : Post :=
  if p.id == pid then
    { p with
      content := match u.content with | some c => some c | none => p.content
      images := u.images.getD [] }
  else p

/-- PostService.updatePost(postId, userId, updateData): 404 when the post
is absent, 403 when the caller does not own it, otherwise overwrite
content/images and return the assembled view. -/
def updatePost (s : Store) (pid uid : Nat) (u : UpdateReq) : Except Err (Store × PostView) :=
  match findPostById s pid with
  | none => Except.error ⟨msgPostNotFound, 404⟩
  | some p =>
    if p.userId != uid then Except.error ⟨msgUpdateOwnPosts, 403⟩
    else
      let s1 : Store := { s with posts := s.posts.map (applyPostUpdate pid u) }
      match getPostById s1 pid with
      | Except.ok v => Except.ok (s1, v)
      | Except.error e => Except.error e

/-- Result shape of PostService.getCommentById: comment columns with the
joined author. -/
structure CommentByIdView where
  id : Nat
  postId : Nat
  content : Option String
  images : List String
  likes : Int
  user : Option User
deriving Repr, DecidableEq

/-- PostService.getCommentById(commentId). -/
def getCommentById (s : Store) (cid : Nat) : Except Err CommentByIdView :=
  match s.comments.find? (fun c => c.id == cid) with
  | none => Except.error ⟨msgCommentNotFound, 404⟩
  | some c =>
    Except.ok
      { id := c.id
        postId := c.postId
        content := c.content
        images := c.images
        likes := c.likes
        user := findUserById s c.userId }

/-- Row transformer of the update statement of updateComment, analogous
to applyPostUpdate. -/
def applyCommentUpdate (cid : Nat) (u : UpdateReq) (c : Comment) : Comment :=
  if c.id == cid then
    { c with
      content := match u.content with | some x => some x | none => c.content
      images := u.images.getD [] }
  else c

/-- PostService.updateComment(commentId, userId, updateData): 404 when the
comment is absent, 403 when the caller does not own it, otherwise
overwrite content/images and return the comment view. -/
def updateComment (s : Store) (cid uid : Nat) (u : UpdateReq) : Except Err (Store × CommentByIdView) :=
  match s.comments.find? (fun c => c.id == cid) with
  | none => Except.error ⟨msgCommentNotFound, 404⟩
  | some c =>
    if c.userId != uid then Except.error ⟨msgUpdateOwnComments, 403⟩
    else
      let s1 : Store := { s with comments := s.comments.map (applyCommentUpdate cid u) }
      match getCommentById s1 cid with
      | Except.ok v => Except.ok (s1, v)
      | Except.error e => Except.error e

/-- Row transformer for the like-counter update of togglePostLike. -/
def adjustPostLikes (pid : Nat) (d : Int) (p : Post) : Post :=
  if p.id == pid then { p with likes := p.likes + d } else p

/-- The likesCount read back by togglePostLike: the likes column of the
post re-selected after the update, with the javascript "or zero" fallback
that leaves every integer unchanged and maps a missing row to zero. -/
def readPostLikes (s : Store) (pid : Nat) : Int :=
  match findPostById s pid with
  | some p => p.likes
  | none => 0

/-- PostService.togglePostLike(postId, userId): 404 when the post is
absent; when a like row of this user for this post exists, delete it and
decrement the post's like counter; otherwise insert one and increment the
counter; return the new liked flag and the re-read counter value. -/
def togglePostLike (s : Store) (pid uid : Nat) : Except Err (Store × Bool × Int) :=
  match findPostById s pid with
  | none => Except.error ⟨msgPostNotFound, 404⟩
  | some _ =>
    if hasPostLike s uid pid then
      let s1 : Store :=
        { s with
          likes := s.likes.filter (fun l => !(l.postId == some pid && l.userId == uid))
          posts := s.posts.map (adjustPostLikes pid (-1)) }
      Except.ok (s1, false, readPostLikes s1 pid)
    else
      let s1 : Store :=
        { s with
          likes := s.likes ++ [{ userId := uid, postId := some pid, commentId := none }]
          posts := s.posts.map (adjustPostLikes pid 1) }
      Except.ok (s1, true, readPostLikes s1 pid)

/-- select from courses where id = cid and isActive limit 1, as issued by
purchaseCourse. -/
def findActiveCourse (s : Store) (cid : Nat) : Option Course :=
  s.courses.find? (fun c => c.id == cid && c.isActive)

/-- Existence probe for a purchase of course cid by user uid. -/
def hasPurchased (s : Store) (uid cid : Nat) : Bool :=
  s.purchases.any (fun pr => pr.courseId == cid && pr.userId == uid)

/-- CourseService.purchaseCourse(userId, courseId): 404 when the course is
missing or inactive, 409 when this user already purchased it, otherwise
insert a purchase row freezing the course's current price as
purchasePrice. -/
def purchaseCourse (s : Store) (uid cid : Nat) : Except Err (Store × Purchase) :=
  match findActiveCourse s cid with
  | none => Except.error ⟨msgCourseNotFound, 404⟩
  | some course =>
    if hasPurchased s uid cid then Except.error ⟨msgAlreadyPurchased, 409⟩
    else
      let newPurchase : Purchase := { userId := uid, courseId := cid, purchasePrice := course.price }
      Except.ok ({ s with purchases := s.purchases ++ [newPurchase] }, newPurchase)

/-- CourseService.updateCourse(courseId, updateData) specialised to an
update carrying only a new price: 404 when the course is absent, otherwise
spread the update over the course row.  Purchases are not touched. -/
def updateCoursePrice (s : Store) (cid : Nat) (newPrice : Int) : Except Err Store :=
  match s.courses.find? (fun c => c.id == cid) with
  | none => Except.error ⟨msgCourseMissing, 404⟩
  | some _ =>
    Except.ok
      { s with courses := s.courses.map (fun c => if c.id == cid then { c with price := newPrice } else c) }

/-- Redis state of one mobile number: the otp entry and the attempts
entry, each a value with an absolute expiry instant in seconds. -/
structure OtpState where
  otp : Option (String × Nat)
  attempts : Option (Nat × Nat)
deriving Repr, DecidableEq

/-- redisClient.get of the otp key at the given instant: an expired entry
reads as absent. -/
def OtpState.getOtp (st : OtpState) (now : Nat) : Option String :=
  match st.otp with
  | some (code, expiry) => if now < expiry then some code else none
  | none => none

/-- redisClient.ttl of the otp key: remaining seconds. -/
def OtpState.otpTtl (st : OtpState) (now : Nat) : Nat :=
  match st.otp with
  | some (_, expiry) => expiry - now
  | none => 0

/-- The attempt count read by verifyOtp: parseInt of the attempts entry,
zero when the entry is absent or expired. -/
def OtpState.getAttempts (st : OtpState) (now : Nat) : Nat :=
  match st.attempts with
  | some (k, expiry) => if now < expiry then k else 0
  | none => 0

/-- OtpService.sendOtp(mobileNumber) with the randomly generated code
passed in as gen: reject with 429 when an otp exists with more than eight
minutes of its ten-minute ttl left, otherwise store the new code for ten
minutes and delete the attempt counter. -/
def sendOtp (st : OtpState) (now : Nat) (gen : String) : OtpState × Except Err String :=
  match st.getOtp now with
  | some _ =>
    if 8 * 60 < st.otpTtl now then (st, Except.error ⟨msgOtpAlreadySent, 429⟩)
    else (⟨some (gen, now + 10 * 60), none⟩, Except.ok gen)
  | none => (⟨some (gen, now + 10 * 60), none⟩, Except.ok gen)

/-- OtpService.verifyOtp(mobileNumber, otp): with five or more recorded
attempts delete the stored code, re-arm the attempt entry for fifteen
minutes and fail 429; with no live code fail 400; with a wrong code bump
the attempt counter for fifteen minutes and fail 400; with the right code
delete both entries and succeed. -/
def verifyOtp (st : OtpState) (now : Nat) (submitted : String) : OtpState × Except Err Unit :=
  let k := st.getAttempts now
  if 5 ≤ k then
    (⟨none, some (5, now + 15 * 60)⟩, Except.error ⟨msgTooManyAttempts, 429⟩)
  else
    match st.getOtp now with
    | none => (st, Except.error ⟨msgOtpExpired, 400⟩)
    | some stored =>
      if stored == submitted then (⟨none, none⟩, Except.ok ())
      else ({ st with attempts := some (k + 1, now + 15 * 60) }, Except.error ⟨msgInvalidOtp, 400⟩)

/-- AuthService.sendOtp(otpData): 404 when no user carries the mobile
number, 400 when that user is an admin (no otp is issued), otherwise
delegate to OtpService.sendOtp. -/
def authSendOtp (s : Store) (st : OtpState) (now : Nat) (gen : String) (mobile : String) :
    OtpState × Except Err String :=
  match s.users.find? (fun u => u.mobileNumber == mobile) with
  | none => (st, Except.error ⟨msgUserNotFound, 404⟩)
  | some u =>
    if u.role == ("admin" : String) then (st, Except.error ⟨msgAdminPasswordLogin, 400⟩)
    else sendOtp st now gen


/-- Concrete post used by the update-post example store. -/
def c10Post : Post := ⟨1, 7, some ("hello"), [("u1.png")], 0, 0, 0, false, none⟩

/-- Concrete comment used by the update-comment example store. -/
def c10Comment : Comment := ⟨4, 1, 7, some ("nice"), [("u2.png")], 0⟩

/-- Example store with one post and one comment, both carrying an image. -/
def c10Store : Store :=
  ⟨[⟨7, ("user"), ("8888888888")⟩], [c10Post], [c10Comment], [], [], [], [], 2⟩

/-- Concrete post with a like counter of three and no like rows. -/
def c2Post : Post := ⟨1, 7, some ("hello"), [], 3, 0, 0, false, none⟩

/-- Example store for the double-toggle example. -/
def c2Store : Store := ⟨[⟨7, ("user"), ("8888888888")⟩], [c2Post], [], [], [], [], [], 2⟩

/-- Concrete original post for the retweet example. -/
def c1Orig : Post := ⟨1, 7, some ("original"), [], 0, 2, 0, false, none⟩

/-- Example store holding one original post and two users. -/
def c1Store : Store :=
  ⟨[⟨7, ("user"), ("8888888888")⟩, ⟨8, ("user"), ("7777777777")⟩], [c1Orig], [], [], [], [], [], 2⟩

/-- Example store holding five posts, for the pagination example. -/
def c3Store : Store :=
  ⟨[], [⟨1, 7, some ("p1"), [], 0, 0, 0, false, none⟩,
        ⟨2, 7, some ("p2"), [], 0, 0, 0, false, none⟩,
        ⟨3, 7, some ("p3"), [], 0, 0, 0, false, none⟩,
        ⟨4, 7, some ("p4"), [], 0, 0, 0, false, none⟩,
        ⟨5, 7, some ("p5"), [], 0, 0, 0, false, none⟩], [], [], [], [], [], 6⟩

/-- Concrete active course. -/
def c4Course : Course := ⟨11, ("algebra"), 4999, some 9999, true⟩

/-- Example store holding one active course and no purchases. -/
def c4Store : Store := ⟨[], [], [], [], [], [c4Course], [], 1⟩

/-- Example store holding one post with six comments. -/
def c7Store : Store :=
  ⟨[⟨7, ("user"), ("8888888888")⟩],
   [⟨1, 7, some ("p"), [], 0, 0, 0, false, none⟩],
   [⟨1, 1, 7, some ("c1"), [], 0⟩, ⟨2, 1, 7, some ("c2"), [], 0⟩,
    ⟨3, 1, 7, some ("c3"), [], 0⟩, ⟨4, 1, 7, some ("c4"), [], 0⟩,
    ⟨5, 1, 7, some ("c5"), [], 0⟩, ⟨6, 1, 7, some ("c6"), [], 0⟩],
   [], [], [], [], 2⟩

lemma applyPostUpdate_id (pid : Nat) (u : UpdateReq) (p : Post) :
    (applyPostUpdate pid u p).id = p.id := by
  unfold applyPostUpdate
  split <;> rfl

lemma applyCommentUpdate_id (cid : Nat) (u : UpdateReq) (c : Comment) :
    (applyCommentUpdate cid u c).id = c.id := by
  unfold applyCommentUpdate
  split <;> rfl

lemma bumpShares_id (pid : Nat) (p : Post) : (bumpShares pid p).id = p.id := by
  unfold bumpShares
  split <;> rfl

lemma adjustPostLikes_id (pid : Nat) (d : Int) (p : Post) :
    (adjustPostLikes pid d p).id = p.id := by
  unfold adjustPostLikes
  split <;> rfl

lemma find_post_map (ps : List Post) (f : Post → Post) (hf : ∀ p, (f p).id = p.id) (pid : Nat) :
    (ps.map f).find? (fun p => p.id == pid) = (ps.find? (fun p => p.id == pid)).map f := by
  rw [List.find?_map]
  have h : ((fun p : Post => p.id == pid) ∘ f) = (fun p : Post => p.id == pid) := by
    funext p
    simp [Function.comp, hf]
  rw [h]

lemma findPostById_pushFresh (s : Store) (np : Post) (hid : np.id = s.nextPostId)
    (hwf : s.WF) :
    findPostById { s with posts := s.posts ++ [np], nextPostId := s.nextPostId + 1 }
      s.nextPostId = some np := by
  show (s.posts ++ [np]).find? (fun p => p.id == s.nextPostId) = some np
  rw [List.find?_append]
  have h1 : s.posts.find? (fun p => p.id == s.nextPostId) = none := by
    rw [List.find?_eq_none]
    intro q hq
    have := hwf q hq
    simp
    omega
  rw [h1]
  simp [hid]

lemma getPostById_ok (s : Store) (pid : Nat) (p : Post) (h : findPostById s pid = some p) :
    ∃ v, getPostById s pid = Except.ok v ∧ v.id = p.id ∧ v.images = p.images ∧
      v.likes = p.likes ∧ v.shares = p.shares ∧ v.bookmarks = p.bookmarks ∧
      v.isRetweet = p.isRetweet ∧ v.originalPostId = p.originalPostId := by
  unfold getPostById
  rw [h]
  exact ⟨_, rfl, rfl, rfl, rfl, rfl, rfl, rfl, rfl⟩

/-- C8: for every valid request (content present or at least one image),
createPost succeeds on a well-formed store and the returned post view
carries likes = 0, shares = 0 and bookmarks = 0, the schema defaults of
the freshly inserted row. -/
theorem createPost_counters_zero (s : Store) (uid : Nat) (req : PostReq)
    (hwf : s.WF) (hv : req.valid) :
    ∃ s1 v, createPost s uid req = Except.ok (s1, v) ∧
      v.likes = 0 ∧ v.shares = 0 ∧ v.bookmarks = 0 := by
  have hfind := findPostById_pushFresh s
    ⟨s.nextPostId, uid, req.content, req.images.getD [], 0, 0, 0, false, none⟩ rfl hwf
  obtain ⟨v, hvok, _, _, hvl, hvs, hvb, _, _⟩ := getPostById_ok _ _ _ hfind
  have hrun : createPost s uid req = Except.ok
      ({ s with
          posts := s.posts ++
            [(⟨s.nextPostId, uid, req.content, req.images.getD [], 0, 0, 0, false, none⟩ : Post)],
          nextPostId := s.nextPostId + 1 }, v) := by
    simp only [createPost]
    rw [hvok]
  exact ⟨_, v, hrun, by rw [hvl], by rw [hvs], by rw [hvb]⟩

/-- Witness for C8 at a concrete empty store and a text-only request. -/
theorem createPost_counters_zero_witness :
    (Store.WF ⟨[], [], [], [], [], [], [], 1⟩ ∧ PostReq.valid ⟨some ("hi"), none⟩) ∧
    ∃ s1 v, createPost ⟨[], [], [], [], [], [], [], 1⟩ 7 ⟨some ("hi"), none⟩ = Except.ok (s1, v) ∧
      v.likes = 0 ∧ v.shares = 0 ∧ v.bookmarks = 0 :=
  ⟨⟨by decide, by decide⟩,
    createPost_counters_zero ⟨[], [], [], [], [], [], [], 1⟩ 7 ⟨some ("hi"), none⟩
      (by decide) (by decide)⟩

/-- C9: AuthService.sendOtp rejects a user whose role is admin with a 400
error carrying the password-login message and leaves the otp cache
untouched, while a non-admin user is forwarded to OtpService.sendOtp. -/
theorem authSendOtp_admin_rejected (s : Store) (st : OtpState) (now : Nat)
    (gen mobile : String) (u : User)
    (hu : s.users.find? (fun x => x.mobileNumber == mobile) = some u) :
    (u.role = ("admin" : String) →
      authSendOtp s st now gen mobile = (st, Except.error ⟨msgAdminPasswordLogin, 400⟩)) ∧
    (u.role ≠ ("admin" : String) →
      authSendOtp s st now gen mobile = sendOtp st now gen) := by
  constructor <;> intro h <;> unfold authSendOtp <;> rw [hu] <;> simp [h]

/-- Witness for C9: an admin user is refused and no OTP state is written. -/
theorem authSendOtp_admin_rejected_witness :
    (⟨[⟨3, ("admin"), ("9999999999")⟩], [], [], [], [], [], [], 1⟩ : Store).users.find?
        (fun x => x.mobileNumber == ("9999999999" : String))
      = some ⟨3, ("admin"), ("9999999999")⟩ ∧
    authSendOtp ⟨[⟨3, ("admin"), ("9999999999")⟩], [], [], [], [], [], [], 1⟩ ⟨none, none⟩ 0
        ("123456") ("9999999999")
      = (⟨none, none⟩, Except.error ⟨msgAdminPasswordLogin, 400⟩) :=
  ⟨by decide,
    (authSendOtp_admin_rejected ⟨[⟨3, ("admin"), ("9999999999")⟩], [], [], [], [], [], [], 1⟩
      ⟨none, none⟩ 0 ("123456") ("9999999999") ⟨3, ("admin"), ("9999999999")⟩ (by decide)).1 rfl⟩

/-- C10: updating an owned post with the images field omitted from the
request overwrites the stored images with the empty list, and likewise for
updating an owned comment. -/
theorem update_omitted_images_clears (s : Store) (pid cid uid : Nat)
    (content ccontent : Option String) (p : Post) (c : Comment)
    (hp : findPostById s pid = some p) (hpo : p.userId = uid)
    (hc : s.comments.find? (fun x => x.id == cid) = some c) (hco : c.userId = uid) :
    (∃ s1 v, updatePost s pid uid ⟨content, none⟩ = Except.ok (s1, v) ∧
      (∃ p2, findPostById s1 pid = some p2 ∧ p2.images = []) ∧ v.images = []) ∧
    (∃ s1 w, updateComment s cid uid ⟨ccontent, none⟩ = Except.ok (s1, w) ∧
      (∃ c2, s1.comments.find? (fun x => x.id == cid) = some c2 ∧ c2.images = []) ∧
      w.images = []) := by
  constructor
  · have hp' : s.posts.find? (fun q => q.id == pid) = some p := hp
    have hid : (p.id == pid) = true := by simpa using List.find?_some hp'
    have him : (applyPostUpdate pid ⟨content, none⟩ p).images = [] := by
      unfold applyPostUpdate
      rw [hid]
      rfl
    have hfind : findPostById
        { s with posts := s.posts.map (applyPostUpdate pid ⟨content, none⟩) } pid
        = some (applyPostUpdate pid ⟨content, none⟩ p) := by
      show (s.posts.map (applyPostUpdate pid ⟨content, none⟩)).find? (fun q => q.id == pid)
        = some (applyPostUpdate pid ⟨content, none⟩ p)
      rw [find_post_map _ _ (fun q => applyPostUpdate_id pid _ q) pid, hp']
      rfl
    obtain ⟨v, hvok, _, hvim, _, _, _, _, _⟩ := getPostById_ok _ _ _ hfind
    have hrun : updatePost s pid uid ⟨content, none⟩ = Except.ok
        ({ s with posts := s.posts.map (applyPostUpdate pid ⟨content, none⟩) }, v) := by
      unfold updatePost
      rw [hp]
      simp only [hpo, bne_self_eq_false, Bool.false_eq_true, if_false, hvok]
    exact ⟨_, v, hrun, ⟨_, hfind, him⟩, by rw [hvim, him]⟩
  · have hid : (c.id == cid) = true := by simpa using List.find?_some hc
    have him : (applyCommentUpdate cid ⟨ccontent, none⟩ c).images = [] := by
      unfold applyCommentUpdate
      rw [hid]
      rfl
    have hfind : (s.comments.map (applyCommentUpdate cid ⟨ccontent, none⟩)).find?
        (fun x => x.id == cid) = some (applyCommentUpdate cid ⟨ccontent, none⟩ c) := by
      rw [List.find?_map]
      have h : ((fun x : Comment => x.id == cid) ∘ applyCommentUpdate cid ⟨ccontent, none⟩)
          = (fun x : Comment => x.id == cid) := by
        funext x
        simp [Function.comp, applyCommentUpdate_id]
      rw [h, hc]
      rfl
    have hrun : updateComment s cid uid ⟨ccontent, none⟩ = Except.ok
        ({ s with comments := s.comments.map (applyCommentUpdate cid ⟨ccontent, none⟩) },
         ⟨(applyCommentUpdate cid ⟨ccontent, none⟩ c).id,
          (applyCommentUpdate cid ⟨ccontent, none⟩ c).postId,
          (applyCommentUpdate cid ⟨ccontent, none⟩ c).content,
          (applyCommentUpdate cid ⟨ccontent, none⟩ c).images,
          (applyCommentUpdate cid ⟨ccontent, none⟩ c).likes,
          findUserById
            { s with comments := s.comments.map (applyCommentUpdate cid ⟨ccontent, none⟩) }
            (applyCommentUpdate cid ⟨ccontent, none⟩ c).userId⟩) := by
      unfold updateComment
      rw [hc]
      simp only [hco, bne_self_eq_false, Bool.false_eq_true, if_false]
      unfold getCommentById
      rw [hfind]
    exact ⟨_, _, hrun, ⟨_, hfind, him⟩, him⟩

/-- Witness for C10 at a concrete store holding one post and one comment
that both carry an image before the update. -/
theorem update_omitted_images_clears_witness :
    (findPostById c10Store 1 = some c10Post ∧ c10Post.userId = 7 ∧
      c10Store.comments.find? (fun x => x.id == 4) = some c10Comment ∧
      c10Comment.userId = 7) ∧
    (∃ s1 v, updatePost c10Store 1 7 ⟨some ("edited"), none⟩ = Except.ok (s1, v) ∧
      (∃ p2, findPostById s1 1 = some p2 ∧ p2.images = []) ∧ v.images = []) ∧
    (∃ s1 w, updateComment c10Store 4 7 ⟨some ("edited"), none⟩ = Except.ok (s1, w) ∧
      (∃ c2, s1.comments.find? (fun x => x.id == 4) = some c2 ∧ c2.images = []) ∧
      w.images = []) :=
  ⟨⟨by decide, by decide, by decide, by decide⟩,
    update_omitted_images_clears c10Store 1 4 7 (some ("edited")) (some ("edited"))
      c10Post c10Comment (by decide) (by decide) (by decide) (by decide)⟩

/-- C4: purchasing a missing-or-inactive course fails 404; a purchase by a
user who already holds one fails 409; a successful purchase records the
course's current price as purchasePrice, a second purchase by the same
user then fails 409, and a later course price update leaves the recorded
purchase row unchanged. -/
theorem purchaseCourse_spec (s : Store) (uid cid : Nat) :
    ((∀ c ∈ s.courses, c.id ≠ cid ∨ c.isActive = false) →
      purchaseCourse s uid cid = Except.error ⟨msgCourseNotFound, 404⟩) ∧
    (∀ course, findActiveCourse s cid = some course →
      hasPurchased s uid cid = true →
      purchaseCourse s uid cid = Except.error ⟨msgAlreadyPurchased, 409⟩) ∧
    (∀ course, findActiveCourse s cid = some course →
      hasPurchased s uid cid = false →
      purchaseCourse s uid cid = Except.ok
        ({ s with purchases := s.purchases ++ [⟨uid, cid, course.price⟩] },
         ⟨uid, cid, course.price⟩) ∧
      purchaseCourse { s with purchases := s.purchases ++ [⟨uid, cid, course.price⟩] } uid cid
        = Except.error ⟨msgAlreadyPurchased, 409⟩ ∧
      (∀ np s2, updateCoursePrice
          { s with purchases := s.purchases ++ [⟨uid, cid, course.price⟩] } cid np
          = Except.ok s2 →
        s2.purchases = s.purchases ++ [⟨uid, cid, course.price⟩])) := by
  refine ⟨?_, ?_, ?_⟩
  · intro h
    have hnone : findActiveCourse s cid = none := by
      unfold findActiveCourse
      rw [List.find?_eq_none]
      intro c hc
      rcases h c hc with h1 | h1 <;> simp [h1]
    unfold purchaseCourse
    rw [hnone]
  · intro course hfound hpur
    unfold purchaseCourse
    rw [hfound]
    simp [hpur]
  · intro course hfound hpur
    refine ⟨?_, ?_, ?_⟩
    · unfold purchaseCourse
      rw [hfound]
      simp [hpur]
    · have hfound2 : findActiveCourse
          { s with purchases := s.purchases ++ [⟨uid, cid, course.price⟩] } cid
          = some course := hfound
      have hpur2 : hasPurchased
          { s with purchases := s.purchases ++ [⟨uid, cid, course.price⟩] } uid cid = true := by
        unfold hasPurchased
        show ((s.purchases ++ [(⟨uid, cid, course.price⟩ : Purchase)]).any
          (fun pr => pr.courseId == cid && pr.userId == uid)) = true
        rw [List.any_append]
        simp
      unfold purchaseCourse
      rw [hfound2]
      simp [hpur2]
    · intro np s2 h
      unfold updateCoursePrice at h
      split at h
      · exact Except.noConfusion h
      · cases h
        rfl

/-- Witness for C4: one concrete active course is purchased at its listed
price, and buying it again fails with the conflict error. -/
theorem purchaseCourse_spec_witness :
    (findActiveCourse c4Store 11 = some c4Course ∧ hasPurchased c4Store 5 11 = false) ∧
    purchaseCourse c4Store 5 11 = Except.ok
      ({ c4Store with purchases := c4Store.purchases ++ [⟨5, 11, c4Course.price⟩] },
       ⟨5, 11, c4Course.price⟩) ∧
    purchaseCourse { c4Store with purchases := c4Store.purchases ++ [⟨5, 11, c4Course.price⟩] }
      5 11 = Except.error ⟨msgAlreadyPurchased, 409⟩ :=
  ⟨⟨by decide, by decide⟩,
    ((purchaseCourse_spec c4Store 5 11).2.2 c4Course (by decide) (by decide)).1,
    ((purchaseCourse_spec c4Store 5 11).2.2 c4Course (by decide) (by decide)).2.1⟩

lemma togglePostLike_insert (s : Store) (pid uid : Nat) (p : Post)
    (hp : findPostById s pid = some p) (hnl : hasPostLike s uid pid = false) :
    ∃ s1, togglePostLike s pid uid = Except.ok (s1, true, readPostLikes s1 pid) ∧
      s1.likes = s.likes ++ [⟨uid, some pid, none⟩] ∧
      s1.posts = s.posts.map (adjustPostLikes pid 1) := by
  refine ⟨{ s with likes := s.likes ++ [⟨uid, some pid, none⟩], posts := s.posts.map (adjustPostLikes pid 1) }, ?_, rfl, rfl⟩
  unfold togglePostLike
  rw [hp]
  simp [hnl]

lemma togglePostLike_delete (s : Store) (pid uid : Nat) (p : Post)
    (hp : findPostById s pid = some p) (hl : hasPostLike s uid pid = true) :
    ∃ s1, togglePostLike s pid uid = Except.ok (s1, false, readPostLikes s1 pid) ∧
      s1.likes = s.likes.filter (fun l => !(l.postId == some pid && l.userId == uid)) ∧
      s1.posts = s.posts.map (adjustPostLikes pid (-1)) := by
  refine ⟨{ s with likes := s.likes.filter (fun l => !(l.postId == some pid && l.userId == uid)), posts := s.posts.map (adjustPostLikes pid (-1)) }, ?_, rfl, rfl⟩
  unfold togglePostLike
  rw [hp]
  simp [hl]

/-- C2: from any state in which the user has not liked the post, toggling
the post like twice returns liked = true with counter + 1, then
liked = false with the original counter; afterwards the stored counter,
the like rows and the liked flag are all back to their initial values. -/
theorem togglePostLike_double (s : Store) (pid uid : Nat) (p : Post)
    (hp : findPostById s pid = some p) (hnl : hasPostLike s uid pid = false) :
    ∃ s1 s2, togglePostLike s pid uid = Except.ok (s1, true, p.likes + 1) ∧
      togglePostLike s1 pid uid = Except.ok (s2, false, p.likes) ∧
      hasPostLike s2 uid pid = false ∧
      readPostLikes s2 pid = p.likes ∧
      s2.likes = s.likes := by
  have hp' : s.posts.find? (fun q => q.id == pid) = some p := hp
  have hid : (p.id == pid) = true := by simpa using List.find?_some hp'
  obtain ⟨s1, he1, hl1, hp1⟩ := togglePostLike_insert s pid uid p hp hnl
  have hfind1 : findPostById s1 pid = some (adjustPostLikes pid 1 p) := by
    unfold findPostById
    rw [hp1, find_post_map _ _ (fun q => adjustPostLikes_id pid 1 q) pid, hp']
    rfl
  have hc1 : readPostLikes s1 pid = p.likes + 1 := by
    unfold readPostLikes
    rw [hfind1]
    simp [adjustPostLikes, hid]
  have hhl1 : hasPostLike s1 uid pid = true := by
    unfold hasPostLike
    rw [hl1, List.any_append]
    simp
  obtain ⟨s2, he2, hl2, hp2⟩ :=
    togglePostLike_delete s1 pid uid (adjustPostLikes pid 1 p) hfind1 hhl1
  have hnl' : ∀ a ∈ s.likes, ¬(a.postId == some pid && a.userId == uid) = true :=
    List.any_eq_false.mp hnl
  have hl2' : s2.likes = s.likes := by
    rw [hl2, hl1, List.filter_append]
    have h1 : s.likes.filter (fun l => !(l.postId == some pid && l.userId == uid)) = s.likes := by
      apply List.filter_eq_self.mpr
      intro a ha
      have := hnl' a ha
      simp at this ⊢
      tauto
    have h2 : ([(⟨uid, some pid, none⟩ : LikeRow)]).filter
        (fun l => !(l.postId == some pid && l.userId == uid)) = [] := by
      simp
    rw [h1, h2, List.append_nil]
  have hfind1' : s1.posts.find? (fun q => q.id == pid) = some (adjustPostLikes pid 1 p) := hfind1
  have hfind2 : findPostById s2 pid
      = some (adjustPostLikes pid (-1) (adjustPostLikes pid 1 p)) := by
    unfold findPostById
    rw [hp2, find_post_map _ _ (fun q => adjustPostLikes_id pid (-1) q) pid, hfind1']
    rfl
  have hc2 : readPostLikes s2 pid = p.likes := by
    unfold readPostLikes
    rw [hfind2]
    simp [adjustPostLikes, hid]
  have hnl2 : hasPostLike s2 uid pid = false := by
    unfold hasPostLike
    rw [hl2']
    exact hnl
  rw [hc1] at he1
  rw [hc2] at he2
  exact ⟨s1, s2, he1, he2, hnl2, hc2, hl2'⟩

/-- Witness for C2 at a concrete store: one post with a counter of three
and no like rows; the double toggle passes through four and back to
three. -/
theorem togglePostLike_double_witness :
    (findPostById c2Store 1 = some c2Post ∧ hasPostLike c2Store 7 1 = false) ∧
    ∃ s1 s2, togglePostLike c2Store 1 7 = Except.ok (s1, true, c2Post.likes + 1) ∧
      togglePostLike s1 1 7 = Except.ok (s2, false, c2Post.likes) ∧
      hasPostLike s2 7 1 = false ∧
      readPostLikes s2 1 = c2Post.likes ∧
      s2.likes = c2Store.likes :=
  ⟨⟨by decide, by decide⟩, togglePostLike_double c2Store 1 7 c2Post (by decide) (by decide)⟩

lemma verifyOtp_wrong_step (att : Option (Nat × Nat)) (code w : String) (e now k : Nat)
    (he : now < e) (hk : k < 5) (hw : w ≠ code)
    (hread : OtpState.getAttempts ⟨some (code, e), att⟩ now = k) :
    verifyOtp ⟨some (code, e), att⟩ now w
      = (⟨some (code, e), some (k + 1, now + 15 * 60)⟩, Except.error ⟨msgInvalidOtp, 400⟩) := by
  have hotp : OtpState.getOtp ⟨some (code, e), att⟩ now = some code := by
    unfold OtpState.getOtp
    simp [he]
  have hcw : (code == w) = false := beq_eq_false_iff_ne.mpr (Ne.symm hw)
  unfold verifyOtp
  rw [hread, if_neg (by omega : ¬ 5 ≤ k), hotp]
  simp [hcw]

lemma verifyOtp_correct_step (att : Option (Nat × Nat)) (code : String) (e now : Nat)
    (he : now < e) (hatt : OtpState.getAttempts ⟨some (code, e), att⟩ now < 5) :
    verifyOtp ⟨some (code, e), att⟩ now code = (⟨none, none⟩, Except.ok ()) := by
  have hotp : OtpState.getOtp ⟨some (code, e), att⟩ now = some code := by
    unfold OtpState.getOtp
    simp [he]
  unfold verifyOtp
  rw [if_neg (by omega : ¬ 5 ≤ OtpState.getAttempts ⟨some (code, e), att⟩ now), hotp]
  simp

lemma getAttempts_live (code : String) (e now k t : Nat) (h : now < t) :
    OtpState.getAttempts ⟨some (code, e), some (k, t)⟩ now = k := by
  unfold OtpState.getAttempts
  simp [h]

/-- C5: starting from a freshly issued code, five consecutive wrong
verification attempts drive the attempt counter to five, so the sixth
attempt fails 429 even when it submits the correct code; a correct
submission while the counter is below five succeeds and deletes both the
code and the counter, after which any further verification of the same
code fails 400. -/
theorem verifyOtp_cap_and_single_use (code w1 w2 w3 w4 w5 : String) (e now : Nat)
    (he : now < e) (h1 : w1 ≠ code) (h2 : w2 ≠ code) (h3 : w3 ≠ code)
    (h4 : w4 ≠ code) (h5 : w5 ≠ code) :
    (verifyOtp (verifyOtp (verifyOtp (verifyOtp (verifyOtp (verifyOtp
        (⟨some (code, e), none⟩ : OtpState) now w1).1 now w2).1 now w3).1
        now w4).1 now w5).1 now code).2
      = Except.error ⟨msgTooManyAttempts, 429⟩ ∧
    (∀ att, OtpState.getAttempts ⟨some (code, e), att⟩ now < 5 →
      verifyOtp ⟨some (code, e), att⟩ now code = (⟨none, none⟩, Except.ok ())) ∧
    (∀ t2 c2, verifyOtp (⟨none, none⟩ : OtpState) t2 c2
      = (⟨none, none⟩, Except.error ⟨msgOtpExpired, 400⟩)) := by
  have hlt : now < now + 15 * 60 := by omega
  have e1 := verifyOtp_wrong_step none code w1 e now 0 he (by omega) h1 rfl
  have e2 := verifyOtp_wrong_step (some (0 + 1, now + 15 * 60)) code w2 e now 1 he (by omega) h2
    (getAttempts_live code e now (0 + 1) (now + 15 * 60) hlt)
  have e3 := verifyOtp_wrong_step (some (1 + 1, now + 15 * 60)) code w3 e now 2 he (by omega) h3
    (getAttempts_live code e now (1 + 1) (now + 15 * 60) hlt)
  have e4 := verifyOtp_wrong_step (some (2 + 1, now + 15 * 60)) code w4 e now 3 he (by omega) h4
    (getAttempts_live code e now (2 + 1) (now + 15 * 60) hlt)
  have e5 := verifyOtp_wrong_step (some (3 + 1, now + 15 * 60)) code w5 e now 4 he (by omega) h5
    (getAttempts_live code e now (3 + 1) (now + 15 * 60) hlt)
  refine ⟨?_, ?_, ?_⟩
  · simp only [e1, e2, e3, e4, e5]
    unfold verifyOtp
    rw [getAttempts_live code e now (4 + 1) (now + 15 * 60) hlt]
    rw [if_pos (by omega : 5 ≤ 4 + 1)]
  · intro att hatt
    exact verifyOtp_correct_step att code e now he hatt
  · intro t2 c2
    rfl

/-- Witness for C5: the concrete code 123456 with five wrong attempts of
000000 at time zero, the code valid until time 600. -/
theorem verifyOtp_cap_and_single_use_witness :
    ((0 : Nat) < 600 ∧ ("000000" : String) ≠ ("123456" : String)) ∧
    (verifyOtp (verifyOtp (verifyOtp (verifyOtp (verifyOtp (verifyOtp
        (⟨some (("123456"), 600), none⟩ : OtpState) 0 ("000000")).1 0 ("000000")).1
        0 ("000000")).1 0 ("000000")).1 0 ("000000")).1 0 ("123456")).2
      = Except.error ⟨msgTooManyAttempts, 429⟩ :=
  ⟨⟨by decide, by decide⟩,
    (verifyOtp_cap_and_single_use ("123456") ("000000") ("000000") ("000000") ("000000")
      ("000000") 600 0 (by decide) (by decide) (by decide) (by decide) (by decide)
      (by decide)).1⟩

/-- Counterexample for C6: at time 0 the number is locked (five recorded
attempts, counter armed until time 900, code deleted), yet the available
operation sequence sendOtp followed by verifyOtp of the new code succeeds
well before the cooldown instant 900, because sendOtp deletes the attempt
counter. -/
theorem otpLockoutBypass_cex :
    (verifyOtp (⟨none, some (5, 900)⟩ : OtpState) 0 ("222222")).2
        = Except.error ⟨msgTooManyAttempts, 429⟩ ∧
    (verifyOtp (sendOtp (⟨none, some (5, 900)⟩ : OtpState) 0 ("222222")).1 0 ("222222")).2
        = Except.ok () := by
  constructor <;> rfl

/-- C6 as amended: while the attempt counter is at the cap every direct
verification attempt fails 429, but the lockout lasts only until a new
OTP is requested: sendOtp succeeds immediately (the stored code was
deleted at lockout) and deletes the attempt counter, after which the new
code verifies successfully before the cooldown has elapsed. -/
theorem otpLockoutClearedByResend (st : OtpState) (now t2 : Nat) (gen c : String)
    (hlock : 5 ≤ st.getAttempts now) (hno : st.otp = none) (h2 : t2 < now + 10 * 60) :
    (verifyOtp st now c).2 = Except.error ⟨msgTooManyAttempts, 429⟩ ∧
    sendOtp st now gen = (⟨some (gen, now + 10 * 60), none⟩, Except.ok gen) ∧
    verifyOtp ⟨some (gen, now + 10 * 60), none⟩ t2 gen = (⟨none, none⟩, Except.ok ()) := by
  refine ⟨?_, ?_, ?_⟩
  · unfold verifyOtp
    rw [if_pos hlock]
  · have hge : st.getOtp now = none := by
      unfold OtpState.getOtp
      rw [hno]
    unfold sendOtp
    rw [hge]
  · exact verifyOtp_correct_step none gen (now + 10 * 60) t2 h2 (by simp [OtpState.getAttempts])

/-- Witness for the amended C6 at the concrete locked state of the
counterexample. -/
theorem otpLockoutClearedByResend_witness :
    (5 ≤ OtpState.getAttempts ⟨none, some (5, 900)⟩ 0 ∧
      (⟨none, some (5, 900)⟩ : OtpState).otp = none ∧ (0 : Nat) < 0 + 10 * 60) ∧
    sendOtp (⟨none, some (5, 900)⟩ : OtpState) 0 ("333333")
      = (⟨some (("333333"), 0 + 10 * 60), none⟩, Except.ok ("333333")) ∧
    verifyOtp ⟨some (("333333"), 0 + 10 * 60), none⟩ 0 ("333333")
      = (⟨none, none⟩, Except.ok ()) :=
  ⟨⟨by decide, by decide, by decide⟩,
    (otpLockoutClearedByResend ⟨none, some (5, 900)⟩ 0 0 ("333333") ("444444")
      (by decide) (by decide) (by decide)).2⟩

lemma createRetweet_success (s : Store) (uid : Nat) (r : RetweetReq) (orig : Post)
    (hwf : s.WF) (ho : findPostById s r.originalPostId = some orig)
    (hrt : orig.isRetweet = false) (hex : hasRetweeted s uid r.originalPostId = false) :
    ∃ s2 v, createRetweet s uid r = Except.ok (s2, v) ∧
      findPostById s2 s.nextPostId
        = some ⟨s.nextPostId, uid, r.content, r.images.getD [], 0, 0, 0, true, some r.originalPostId⟩ ∧
      findPostById s2 r.originalPostId = some { orig with shares := orig.shares + 1 } ∧
      (∀ q ∈ s.posts, q.id ≠ r.originalPostId → q ∈ s2.posts) := by
  have ho' : s.posts.find? (fun q => q.id == r.originalPostId) = some orig := ho
  have hoid : orig.id = r.originalPostId := by simpa using List.find?_some ho'
  have hoidb : (orig.id == r.originalPostId) = true := by simp [hoid]
  have hmem : orig ∈ s.posts := List.mem_of_find?_eq_some ho'
  have hlt : orig.id < s.nextPostId := hwf orig hmem
  have hne : ((s.nextPostId : Nat) == r.originalPostId) = false := by
    simp
    omega
  have hfind_new : findPostById { s with posts := (s.posts ++ [(⟨s.nextPostId, uid, r.content, r.images.getD [], 0, 0, 0, true, some r.originalPostId⟩ : Post)]).map (bumpShares r.originalPostId), nextPostId := s.nextPostId + 1 } s.nextPostId
      = some ⟨s.nextPostId, uid, r.content, r.images.getD [], 0, 0, 0, true, some r.originalPostId⟩ := by
    show ((s.posts ++ [(⟨s.nextPostId, uid, r.content, r.images.getD [], 0, 0, 0, true, some r.originalPostId⟩ : Post)]).map (bumpShares r.originalPostId)).find? (fun q => q.id == s.nextPostId)
      = some ⟨s.nextPostId, uid, r.content, r.images.getD [], 0, 0, 0, true, some r.originalPostId⟩
    rw [find_post_map _ _ (fun q => bumpShares_id r.originalPostId q) s.nextPostId,
      List.find?_append]
    have h1 : s.posts.find? (fun q => q.id == s.nextPostId) = none := by
      rw [List.find?_eq_none]
      intro q hq
      have := hwf q hq
      simp
      omega
    rw [h1]
    simp [List.find?, bumpShares, hne]
  have hfind_orig : findPostById { s with posts := (s.posts ++ [(⟨s.nextPostId, uid, r.content, r.images.getD [], 0, 0, 0, true, some r.originalPostId⟩ : Post)]).map (bumpShares r.originalPostId), nextPostId := s.nextPostId + 1 } r.originalPostId
      = some { orig with shares := orig.shares + 1 } := by
    show ((s.posts ++ [(⟨s.nextPostId, uid, r.content, r.images.getD [], 0, 0, 0, true, some r.originalPostId⟩ : Post)]).map (bumpShares r.originalPostId)).find? (fun q => q.id == r.originalPostId)
      = some { orig with shares := orig.shares + 1 }
    rw [find_post_map _ _ (fun q => bumpShares_id r.originalPostId q) r.originalPostId,
      List.find?_append, ho']
    simp [bumpShares, hoidb]
  have hkeep : ∀ q ∈ s.posts, q.id ≠ r.originalPostId →
      q ∈ ((s.posts ++ [(⟨s.nextPostId, uid, r.content, r.images.getD [], 0, 0, 0, true, some r.originalPostId⟩ : Post)]).map (bumpShares r.originalPostId)) := by
    intro q hq hqne
    have hbq : bumpShares r.originalPostId q = q := by
      unfold bumpShares
      simp [hqne]
    have hin := List.mem_map_of_mem (bumpShares r.originalPostId)
      (List.mem_append_left [(⟨s.nextPostId, uid, r.content, r.images.getD [], 0, 0, 0, true, some r.originalPostId⟩ : Post)] hq)
    rw [hbq] at hin
    exact hin
  obtain ⟨v, hvok, _⟩ := getPostById_ok _ _ _ hfind_new
  refine ⟨{ s with posts := (s.posts ++ [(⟨s.nextPostId, uid, r.content, r.images.getD [], 0, 0, 0, true, some r.originalPostId⟩ : Post)]).map (bumpShares r.originalPostId), nextPostId := s.nextPostId + 1 }, v, ?_, hfind_new, hfind_orig, hkeep⟩
  unfold createRetweet
  rw [ho]
  simp only [hrt, Bool.false_eq_true, if_false, hex, hvok]

/-- C1: createRetweet fails 404 when the original post is absent, 400 when
the original is itself a retweet, 409 when this user already retweeted the
original; otherwise it succeeds, a fresh post with isRetweet true and
originalPostId set is inserted with a zero share counter of its own, the
original post's share counter is incremented by exactly one, and every
other post row is left unchanged. -/
theorem createRetweet_full_spec (s : Store) (uid : Nat) (r : RetweetReq) (hwf : s.WF) :
    (findPostById s r.originalPostId = none →
      createRetweet s uid r = Except.error ⟨msgOriginalNotFound, 404⟩) ∧
    (∀ orig, findPostById s r.originalPostId = some orig → orig.isRetweet = true →
      createRetweet s uid r = Except.error ⟨msgCannotRetweet, 400⟩) ∧
    (∀ orig, findPostById s r.originalPostId = some orig → orig.isRetweet = false →
      hasRetweeted s uid r.originalPostId = true →
      createRetweet s uid r = Except.error ⟨msgAlreadyRetweeted, 409⟩) ∧
    (∀ orig, findPostById s r.originalPostId = some orig → orig.isRetweet = false →
      hasRetweeted s uid r.originalPostId = false →
      ∃ s2 v np, createRetweet s uid r = Except.ok (s2, v) ∧
        findPostById s2 s.nextPostId = some np ∧
        np.isRetweet = true ∧ np.originalPostId = some r.originalPostId ∧
        np.userId = uid ∧ np.shares = 0 ∧
        findPostById s2 r.originalPostId = some { orig with shares := orig.shares + 1 } ∧
        (∀ q ∈ s.posts, q.id ≠ r.originalPostId → q ∈ s2.posts)) := by
  refine ⟨?_, ?_, ?_, ?_⟩
  · intro h
    unfold createRetweet
    rw [h]
  · intro orig ho hrt
    unfold createRetweet
    rw [ho]
    simp [hrt]
  · intro orig ho hrt hex
    unfold createRetweet
    rw [ho]
    simp [hrt, hex]
  · intro orig ho hrt hex
    obtain ⟨s2, v, hrun, hnew, horig2, hkeep⟩ := createRetweet_success s uid r orig hwf ho hrt hex
    exact ⟨s2, v, _, hrun, hnew, rfl, rfl, rfl, rfl, horig2, hkeep⟩

/-- Witness for C1: user 8 retweets post 1 of the concrete store; the new
retweet appears with id 2 and the original's share counter goes from two
to three. -/
theorem createRetweet_full_spec_witness :
    (Store.WF c1Store ∧ findPostById c1Store 1 = some c1Orig ∧ c1Orig.isRetweet = false ∧
      hasRetweeted c1Store 8 1 = false) ∧
    ∃ s2 v np, createRetweet c1Store 8 ⟨1, none, none⟩ = Except.ok (s2, v) ∧
      findPostById s2 c1Store.nextPostId = some np ∧
      np.isRetweet = true ∧ np.originalPostId = some 1 ∧ np.userId = 8 ∧ np.shares = 0 ∧
      findPostById s2 1 = some { c1Orig with shares := c1Orig.shares + 1 } ∧
      (∀ q ∈ c1Store.posts, q.id ≠ 1 → q ∈ s2.posts) :=
  ⟨⟨by decide, by decide, by decide, by decide⟩,
    (createRetweet_full_spec c1Store 8 ⟨1, none, none⟩ (by decide)).2.2.2 c1Orig
      (by decide) (by decide) (by decide)⟩

lemma jsCeilDiv_eq (N L : Nat) (hL : 1 ≤ L) :
    jsCeilDiv N L = N / L + (if N % L = 0 then 0 else 1) := by
  unfold jsCeilDiv
  have hNL : L * (N / L) + N % L = N := Nat.div_add_mod N L
  rcases Nat.eq_zero_or_pos (N % L) with hr | hr
  · rw [if_pos hr]
    have h1 : N + L - 1 = L * (N / L) + (L - 1) := by omega
    rw [h1, Nat.mul_add_div (by omega), Nat.div_eq_of_lt (show L - 1 < L by omega)]
  · rw [if_neg (by omega)]
    have hrlt : N % L < L := Nat.mod_lt N (by omega)
    have h1 : N + L - 1 = L * (N / L) + (N % L - 1 + L) := by omega
    rw [h1, Nat.mul_add_div (by omega), Nat.add_div_right _ (by omega),
      Nat.div_eq_of_lt (show N % L - 1 < L by omega)]

lemma jsCeilDiv_mul_ge (N L : Nat) (hL : 1 ≤ L) : N ≤ jsCeilDiv N L * L := by
  rw [jsCeilDiv_eq N L hL]
  have key : N / L * L + N % L = N := Nat.div_add_mod' N L
  have hrlt : N % L < L := Nat.mod_lt N (by omega)
  rcases Nat.eq_zero_or_pos (N % L) with hr | hr
  · rw [if_pos hr, Nat.add_zero]
    omega
  · rw [if_neg (by omega), Nat.add_mul, Nat.one_mul]
    omega

/-- C3: with a page size of at least one, requesting page
ceil(N / limit) of a store holding N posts returns N mod limit rows
(limit rows when limit divides N), any page beyond that returns an empty
data array, and the metadata of every page reports total = N and
totalPages = ceil(total / limit). -/
theorem getPosts_pagination (s : Store) (limit : Nat) (viewer : Option Nat)
    (hL : 1 ≤ limit) :
    (1 ≤ s.posts.length →
      (getPosts s (jsCeilDiv s.posts.length limit) limit viewer).data.length
        = if s.posts.length % limit = 0 then limit else s.posts.length % limit) ∧
    (∀ page, jsCeilDiv s.posts.length limit < page →
      (getPosts s page limit viewer).data = []) ∧
    (∀ page, (getPosts s page limit viewer).total = s.posts.length ∧
      (getPosts s page limit viewer).totalPages
        = jsCeilDiv (getPosts s page limit viewer).total limit) := by
  refine ⟨?_, ?_, ?_⟩
  · intro hN
    have key : s.posts.length / limit * limit + s.posts.length % limit = s.posts.length :=
      Nat.div_add_mod' s.posts.length limit
    have hrlt : s.posts.length % limit < limit := Nat.mod_lt s.posts.length (by omega)
    simp only [getPosts, List.length_map, List.length_take, List.length_drop,
      List.length_reverse, jsCeilDiv_eq s.posts.length limit hL]
    rcases Nat.eq_zero_or_pos (s.posts.length % limit) with hr | hr
    · rw [if_pos hr, if_pos hr, Nat.add_zero, Nat.sub_mul, Nat.one_mul]
      have hLN : limit ≤ s.posts.length :=
        Nat.le_of_dvd (by omega) (Nat.dvd_of_mod_eq_zero hr)
      omega
    · rw [if_neg (by omega), if_neg (by omega), Nat.add_sub_cancel]
      omega
  · intro page hpage
    have hoff : s.posts.length ≤ (page - 1) * limit := by
      have h1 : jsCeilDiv s.posts.length limit ≤ page - 1 := by omega
      have h2 : jsCeilDiv s.posts.length limit * limit ≤ (page - 1) * limit :=
        Nat.mul_le_mul_right limit h1
      have h3 := jsCeilDiv_mul_ge s.posts.length limit hL
      omega
    simp only [getPosts]
    rw [List.drop_eq_nil_of_le (by rw [List.length_reverse]; exact hoff)]
    simp
  · intro page
    exact ⟨rfl, rfl⟩

/-- Witness for C3 at a concrete store of five posts with page size two:
the last page (page three) holds one row, page four is empty, and
totalPages is three. -/
theorem getPosts_pagination_witness :
    ((1 : Nat) ≤ 2 ∧ 1 ≤ c3Store.posts.length ∧ jsCeilDiv c3Store.posts.length 2 < 4) ∧
    (getPosts c3Store (jsCeilDiv c3Store.posts.length 2) 2 none).data.length
      = (if c3Store.posts.length % 2 = 0 then 2 else c3Store.posts.length % 2) ∧
    (getPosts c3Store 4 2 none).data = [] ∧
    (getPosts c3Store 4 2 none).total = c3Store.posts.length ∧
    (getPosts c3Store 4 2 none).totalPages
      = jsCeilDiv (getPosts c3Store 4 2 none).total 2 :=
  ⟨⟨by decide, by decide, by decide⟩,
    (getPosts_pagination c3Store 2 none (by decide)).1 (by decide),
    (getPosts_pagination c3Store 2 none (by decide)).2.1 4 (by decide),
    ((getPosts_pagination c3Store 2 none (by decide)).2.2 4).1,
    ((getPosts_pagination c3Store 2 none (by decide)).2.2 4).2⟩

/-- Counterexample for C7: in the concrete store the post has six
comments; the by-id read returns all six (its comment page limit is ten),
while the paginated list path attaches only the first five — so the by-id
path does not fetch the post's first five comments as the claim states. -/
theorem getPostById_comment_limit_cex :
    ((getPostById c7Store 1).toOption.map (fun v => v.comments.length) = some 6) ∧
    ((getPosts c7Store 1 10 none).data.map (fun f => f.comments.length) = [5]) := by
  constructor <;> rfl

lemma originalPostView_comments_empty (s : Store) (post : Post) (ov : OriginalView)
    (h : originalPostView s post = some ov) : ov.comments = [] := by
  unfold originalPostView at h
  split at h
  · split at h
    · exact Option.noConfusion h
    · split at h
      · exact Option.noConfusion h
      · split at h
        · exact Option.noConfusion h
        · cases h
          rfl
  · exact Option.noConfusion h

lemma originalPostView_not_retweet (s : Store) (post : Post)
    (h : post.isRetweet = false) : originalPostView s post = none := by
  unfold originalPostView
  simp [h]

/-- C7 as amended: the by-id read succeeds for an existing post and
assembles it like the list path except that it fetches the post's first
TEN comments (the list path fetches five); when the post is a retweet the
attached original is the depth-one view carrying the original row, its
author and an always-empty comments array (and its type has no
originalPost field of its own); the result type carries no viewer-relative
isLiked, isBookmarked or isRetweeted flags. -/
theorem getPostById_assembly (s : Store) (pid : Nat) (p : Post)
    (hp : findPostById s pid = some p) :
    ∃ v, getPostById s pid = Except.ok v ∧
      v.comments = (getPostComments s pid 1 10 none).comments ∧
      v.comments.length = min 10 (s.comments.filter (fun c => c.postId == pid)).length ∧
      (assembleFeedPost s none p).comments.length
        = min 5 (s.comments.filter (fun c => c.postId == p.id)).length ∧
      (∀ ov, v.originalPost = some ov → ov.comments = []) ∧
      (p.isRetweet = false → v.originalPost = none) := by
  have hlen10 : (getPostComments s pid 1 10 none).comments.length
      = min 10 (s.comments.filter (fun c => c.postId == pid)).length := by
    simp [getPostComments]
  have hlen5 : (getPostComments s p.id 1 5 none).comments.length
      = min 5 (s.comments.filter (fun c => c.postId == p.id)).length := by
    simp [getPostComments]
  unfold getPostById
  rw [hp]
  refine ⟨_, rfl, rfl, hlen10, hlen5, ?_, ?_⟩
  · intro ov hov
    exact originalPostView_comments_empty s p ov hov
  · intro hir
    exact originalPostView_not_retweet s p hir

/-- Witness for the amended C7 at the concrete six-comment store. -/
theorem getPostById_assembly_witness :
    (findPostById c7Store 1 = some ⟨1, 7, some ("p"), [], 0, 0, 0, false, none⟩) ∧
    ∃ v, getPostById c7Store 1 = Except.ok v ∧
      v.comments = (getPostComments c7Store 1 1 10 none).comments ∧
      v.comments.length = min 10 (c7Store.comments.filter (fun c => c.postId == 1)).length ∧
      (assembleFeedPost c7Store none ⟨1, 7, some ("p"), [], 0, 0, 0, false, none⟩).comments.length
        = min 5 (c7Store.comments.filter (fun c =>
            c.postId == (⟨1, 7, some ("p"), [], 0, 0, 0, false, none⟩ : Post).id)).length ∧
      (∀ ov, v.originalPost = some ov → ov.comments = []) ∧
      ((⟨1, 7, some ("p"), [], 0, 0, 0, false, none⟩ : Post).isRetweet = false →
        v.originalPost = none) :=
  ⟨by decide,
    getPostById_assembly c7Store 1 ⟨1, 7, some ("p"), [], 0, 0, 0, false, none⟩ (by decide)⟩
